import Mathlib

/-!
Shallow embedding of the opencubes renderer (device selection, swapchain
configuration, frame recording and teardown), translated from the Rust
sources under `src/`, together with theorems settling the specification
claims about it.
-/

namespace OpenCubes

/-! ## Data model -/

/-- Embeds `ash::vk::Extent2D`: u32 width/height, modelled as `Nat`. -/
structure Extent2D where
  width : Nat
  height : Nat
  deriving DecidableEq, Repr

/-- The u32 sentinel `u32::MAX` used by `choose_swap_extent`. -/
def U32_MAX : Nat := 4294967295

/-- Embeds the fields of `ash::vk::SurfaceCapabilitiesKHR` read by the renderer. -/
structure SurfaceCapabilitiesKHR where
  minImageCount : Nat
  maxImageCount : Nat
  currentExtent : Extent2D
  minImageExtent : Extent2D
  maxImageExtent : Extent2D
  deriving DecidableEq, Repr

/-- Embeds `ash::vk::SurfaceFormatKHR`: a format code and a color-space code,
both modelled by their numeric Vulkan values. -/
structure SurfaceFormatKHR where
  format : Nat
  colorSpace : Nat
  deriving DecidableEq, Repr

/-- Numeric value of `ash::vk::Format::B8G8R8A8_SRGB`. -/
def B8G8R8A8_SRGB : Nat := 50

/-- Numeric value of `ash::vk::ColorSpaceKHR::SRGB_NONLINEAR`. -/
def SRGB_NONLINEAR : Nat := 0

/-- Embeds `SwapChainSupportDetails` (the `capabilities`/`formats`/`present_modes`
triple queried per adapter; field names follow `src/renderer/utils.rs`, and
`src/renderer/physical_device.rs` holds the same triple as
`surface_capabilities`/`formats`/`present_modes`).  Present modes are modelled
by their numeric Vulkan values. -/
structure SwapChainSupportDetails where
  capabilities : SurfaceCapabilitiesKHR
  formats : List SurfaceFormatKHR
  presentModes : List Nat
  deriving DecidableEq, Repr

/-! ## Swapchain configuration choices -/

/-- Embeds `SwapChainSupportDetails::choose_format`, identical in
`src/renderer/utils.rs` (lines 305-314) and `src/renderer/physical_device.rs`
(lines 278-287): return the first format equal to
(`B8G8R8A8_SRGB`, `SRGB_NONLINEAR`) if one occurs, otherwise the first list
entry; `none` models the panic of indexing `formats[0]` on an empty list.
The source function is pure in the list, so repeated calls agree. -/
def SwapChainSupportDetails.chooseFormat (d : SwapChainSupportDetails) :
    Option SurfaceFormatKHR :=
  match d.formats.find? (fun f =>
      f.format == B8G8R8A8_SRGB && f.colorSpace == SRGB_NONLINEAR) with
  | some f => some f
  | none => d.formats.head?

/-- Embeds Rust `u32::clamp(lo, hi)` as used in `choose_swap_extent`:
`if x < lo { lo } else if x > hi { hi } else { x }`.  (Rust panics when
`lo > hi`; the theorems below hypothesise `lo ≤ hi`, which Vulkan guarantees
for the image-extent bounds.) -/
def clampU32 (x lo hi : Nat) : Nat :=
  if x < lo then lo else if x > hi then hi else x

/-- Embeds `SwapChainSupportDetails::choose_swap_extent`
(`src/renderer/physical_device.rs` lines 298-314; `choose_swap_extend` in
`src/renderer/utils.rs` lines 325-343 computes the same value through mutation):
if `current_extent.width` is not the `u32::MAX` sentinel, return
`current_extent` verbatim, else clamp the window's inner size component-wise
into the min/max image extents. -/
def SwapChainSupportDetails.chooseSwapExtent (d : SwapChainSupportDetails)
    (windowSize : Extent2D) : Extent2D :=
  if d.capabilities.currentExtent.width ≠ U32_MAX then
    d.capabilities.currentExtent
  else
    { width := clampU32 windowSize.width
        d.capabilities.minImageExtent.width d.capabilities.maxImageExtent.width,
      height := clampU32 windowSize.height
        d.capabilities.minImageExtent.height d.capabilities.maxImageExtent.height }

/-- Embeds `SwapChainSupportDetails::choose_image_count`
(`src/renderer/utils.rs` lines 345-352), exactly as written there:
`image_count = min_image_count + 1`, and the function returns
`max_image_count` when `max_image_count > 0 && max_image_count > image_count`
(note the direction of that comparison), else `image_count`. -/
def SwapChainSupportDetails.chooseImageCount (d : SwapChainSupportDetails) : Nat :=
  let imageCount := d.capabilities.minImageCount + 1
  if d.capabilities.maxImageCount > 0 ∧ d.capabilities.maxImageCount > imageCount then
    d.capabilities.maxImageCount
  else
    imageCount

/-- Embeds the image-count computation inlined in `SwapChain::new`
(`src/renderer/swapchain.rs` lines 35-55): `image_count = min_image_count + 1`,
set to `max_image_count` when `max_image_count > 0 && image_count > max_image_count`. -/
def swapChainNewImageCount (caps : SurfaceCapabilitiesKHR) : Nat :=
  let imageCount := caps.minImageCount + 1
  if caps.maxImageCount > 0 ∧ imageCount > caps.maxImageCount then
    caps.maxImageCount
  else
    imageCount

/-- Embeds `ash::vk::SharingMode` (the two values the renderer uses). -/
inductive SharingMode where
  | exclusive
  | concurrent
  deriving DecidableEq, Repr

/-- Embeds the sharing-mode selection of `SwapChain::new`
(`src/renderer/swapchain.rs` lines 75-94) and `Renderer::create_swap_chain`
(`src/renderer/mod.rs` lines 351-364): the inputs are the unwrapped graphics
and present queue family indices; the result is the sharing mode and the
queue-family index list written into the create info (left empty in the
exclusive branch). -/
def swapChainSharing (graphicsFamily presentFamily : Nat) :
    SharingMode × List Nat :=
  if graphicsFamily ≠ presentFamily then
    (SharingMode.concurrent, [graphicsFamily, presentFamily])
  else
    (SharingMode.exclusive, [])

/-! ## Queue families -/

/-- One entry of `get_physical_device_queue_family_properties`, paired with the
result of `get_physical_device_surface_support` for its index: whether the
family's queue flags contain `GRAPHICS`, and whether it can present to the
target surface. -/
structure QueueFamilyProp where
  supportsGraphics : Bool
  supportsPresent : Bool
  deriving DecidableEq, Repr

/-- Embeds `utils::QueueFamilyIndices` (`src/renderer/utils.rs` lines 215-219)
and `QueueFamiliesIndices` (`src/renderer/physical_device.rs` lines 188-192). -/
structure QueueFamilyIndices where
  graphicsFamily : Option Nat
  presentFamily : Option Nat
  deriving DecidableEq, Repr

/-- Embeds `QueueFamilyIndices::has_required`
(`src/renderer/utils.rs` lines 222-224). -/
def QueueFamilyIndices.hasRequired (q : QueueFamilyIndices) : Bool :=
  q.graphicsFamily.isSome && q.presentFamily.isSome

/-- Loop of `utils::find_queue_families` (`src/renderer/utils.rs` lines 239-271)
and of `QueueFamiliesIndices::extract` (`src/renderer/physical_device.rs` lines
195-228), which perform the same per-index updates: record the first index whose
flags contain `GRAPHICS`, and the first index with surface support. -/
def findQueueFamiliesGo (i : Nat) (g p : Option Nat) :
    List QueueFamilyProp → QueueFamilyIndices
  | [] => ⟨g, p⟩
  | q :: rest =>
    let g' := if q.supportsGraphics && g.isNone then some i else g
    let p' := if p.isNone && q.supportsPresent then some i else p
    findQueueFamiliesGo (i + 1) g' p' rest

/-- Embeds `utils::find_queue_families` / `QueueFamiliesIndices::extract`:
scan the queue family properties from index 0 with no index resolved. -/
def findQueueFamilies (props : List QueueFamilyProp) : QueueFamilyIndices :=
  findQueueFamiliesGo 0 none none props

/-! ## Device selection, `utils.rs` variant -/

/-- Embeds `ash::vk::PhysicalDeviceType` (the cases matched by the renderer). -/
inductive PhysicalDeviceType where
  | other
  | integratedGpu
  | discreteGpu
  | virtualGpu
  | cpu
  deriving DecidableEq, Repr

/-- Per-candidate data read by `utils::pick_most_suitable_physical_device`
(`src/renderer/utils.rs` lines 112-189): the queue family properties (with
surface support), the names of the available device extensions, the queried
swapchain support details, and the device type from the device properties. -/
structure AdapterInfo where
  queueFamilies : List QueueFamilyProp
  extensions : List String
  details : SwapChainSupportDetails
  deviceType : PhysicalDeviceType
  deriving DecidableEq, Repr

/-- Step 1 of the loop of `pick_most_suitable_physical_device`
(`src/renderer/utils.rs` lines 134-156, "MAKE SURE DEVICE IS SUITABLE"): the
candidate is skipped (`continue 'outer`) unless it has the required queue
families, every required extension is among its available extensions, and its
format and present-mode lists are non-empty. -/
def adapterSurvives (requiredExtensions : List String) (d : AdapterInfo) : Bool :=
  (findQueueFamilies d.queueFamilies).hasRequired
    && requiredExtensions.all (fun e => d.extensions.contains e)
    && !d.details.formats.isEmpty
    && !d.details.presentModes.isEmpty

/-- Steps 2 and 3 of the loop of `pick_most_suitable_physical_device`
(`src/renderer/utils.rs` lines 158-177): add `ratings[index]` for each
available optional extension, then 1000 for a discrete GPU. -/
def adapterScore (optionalExtensions : List String) (ratings : List Nat)
    (d : AdapterInfo) : Nat :=
  let extScore := (optionalExtensions.zip ratings).foldl
    (fun acc er => if d.extensions.contains er.1 then acc + er.2 else acc) 0
  extScore + (if d.deviceType = PhysicalDeviceType.discreteGpu then 1000 else 0)

/-- The `best` accumulation of `pick_most_suitable_physical_device`
(`src/renderer/utils.rs` lines 127-182): starting from `best = (0, 0)`, each
surviving candidate's score replaces `best` only when strictly greater
(`score > best.1`); `i` is the enumeration index of the head of the remaining
list. -/
def pickBestGo (req opt : List String) (ratings : List Nat) :
    Nat → Nat × Nat → List AdapterInfo → Nat × Nat
  | _, best, [] => best
  | i, best, d :: rest =>
    let best' :=
      if adapterSurvives req d then
        let s := adapterScore opt ratings d
        if s > best.2 then (i, s) else best
      else best
    pickBestGo req opt ratings (i + 1) best' rest

/-- Embeds `utils::pick_most_suitable_physical_device`
(`src/renderer/utils.rs` lines 112-189).  `none` models the two panics: the
up-front ratings/optional-extensions length mismatch, and
`best.1 == 0` ("No Suitable Physical Device found") after the loop; otherwise
the device at the best index is returned. -/
def pickMostSuitablePhysicalDevice (req opt : List String) (ratings : List Nat)
    (devices : List AdapterInfo) : Option AdapterInfo :=
  if ratings.length ≠ opt.length then none
  else
    let best := pickBestGo req opt ratings 0 (0, 0) devices
    if best.2 = 0 then none
    else devices.get? best.1

/-- Effective contribution of a candidate to the `best` accumulator of
`pick_most_suitable_physical_device`: rejected candidates never update `best`,
which (from the `(0, 0)` start and the strict comparison) is equivalent to
contributing score 0. -/
def effectiveScore (req opt : List String) (ratings : List Nat)
    (d : AdapterInfo) : Nat :=
  if adapterSurvives req d then adapterScore opt ratings d else 0

/-! ## Device selection, `physical_device.rs` variant -/

/-- Embeds the single feature flag of `ash::vk::PhysicalDeviceFeatures` read by
`PhysicalDevice::rate` (`geometry_shader`, a `Bool32`). -/
structure PhysicalDeviceFeatures where
  geometryShader : Nat
  deriving DecidableEq, Repr

/-- Per-candidate data read by `PhysicalDevice::rate`
(`src/renderer/physical_device.rs` lines 85-185): available device layer and
extension names, the device features, queue family properties (with surface
support), swapchain support details, the raw u32 `api_version` of the device
properties, and the device type. -/
structure CandidateInfo where
  layers : List String
  extensions : List String
  features : PhysicalDeviceFeatures
  queueFamilies : List QueueFamilyProp
  details : SwapChainSupportDetails
  apiVersion : Nat
  deviceType : PhysicalDeviceType
  deriving DecidableEq, Repr

/-- Embeds the required device extension names of `constants.rs` (line 21). -/
def PHYSICAL_DEVICE_REQUIRED_EXTENSION_NAMES : List String := ["VK_KHR_swapchain"]

/-- Embeds the optional device extension names of `constants.rs` (line 22). -/
def PHYSICAL_DEVICE_OPTIONAL_EXTENSION_NAMES : List String := []

/-- Embeds the required device layer names of `constants.rs` (line 23). -/
def PHYSICAL_DEVICE_REQUIRED_LAYER_NAMES : List String := []

/-- Embeds the optional device layer names of `constants.rs` (line 24). -/
def PHYSICAL_DEVICE_OPTIONAL_LAYER_NAMES : List String := []

/-- Embeds `ash::vk::make_api_version`:
`(variant << 29) | (major << 22) | (minor << 12) | patch`. -/
def makeApiVersion (variant major minor patch : Nat) : Nat :=
  (variant <<< 29) ||| (major <<< 22) ||| (minor <<< 12) ||| patch

/-- Embeds `INSTANCE_API_VERSION.u32_patchless()` for
`INSTANCE_API_VERSION = ApiVersion::new(0, 1, 2, 0)` (`constants.rs` line 12,
`utils/apiversion.rs` lines 23-25). -/
def INSTANCE_API_VERSION_PATCHLESS : Nat := makeApiVersion 0 1 2 0

/-- Embeds `SwapChainSupportDetails::is_suitable`
(`src/renderer/physical_device.rs` lines 274-276). -/
def SwapChainSupportDetails.isSuitable (d : SwapChainSupportDetails) : Bool :=
  !d.formats.isEmpty && !d.presentModes.isEmpty

/-- Embeds `PhysicalDevice::rate` (`src/renderer/physical_device.rs` lines
85-185), check by check in source order: required layers available (after
filtering the device layers to the optional/required name sets), required
extensions available (same filtering), `geometry_shader != 0`, both queue
family indices resolved, swapchain support suitable, `api_version` at least
the patchless instance version; then the score is the device-type bonus
(discrete 1000, integrated 500, virtual 500, other 300, anything else 0).
`none` embeds `return None`. -/
def PhysicalDevice.rate (d : CandidateInfo) : Option Nat :=
  let layers := d.layers.filter fun l =>
    PHYSICAL_DEVICE_OPTIONAL_LAYER_NAMES.contains l
      || PHYSICAL_DEVICE_REQUIRED_LAYER_NAMES.contains l
  if PHYSICAL_DEVICE_REQUIRED_LAYER_NAMES.all (fun r => layers.contains r) then
    let extensions := d.extensions.filter fun e =>
      PHYSICAL_DEVICE_OPTIONAL_EXTENSION_NAMES.contains e
        || PHYSICAL_DEVICE_REQUIRED_EXTENSION_NAMES.contains e
    if PHYSICAL_DEVICE_REQUIRED_EXTENSION_NAMES.all (fun r => extensions.contains r) then
      if d.features.geometryShader = 0 then none
      else
        let qfi := findQueueFamilies d.queueFamilies
        if qfi.graphicsFamily.isNone || qfi.presentFamily.isNone then none
        else if d.details.isSuitable then
          if d.apiVersion < INSTANCE_API_VERSION_PATCHLESS then none
          else
            some (match d.deviceType with
              | PhysicalDeviceType.discreteGpu => 1000
              | PhysicalDeviceType.integratedGpu => 500
              | PhysicalDeviceType.virtualGpu => 500
              | PhysicalDeviceType.other => 300
              | PhysicalDeviceType.cpu => 0)
        else none
    else none
  else none

/-- Embeds Rust `Iterator::max_by_key` as used by `PhysicalDevice::pick`
(`src/renderer/physical_device.rs` line 43): fold keeping the new element
whenever its key is greater than or equal to the current one, so that of
several equally maximal elements the last is kept. -/
def maxByKeyLastGo {α : Type} (best : α × Nat) : List (α × Nat) → α × Nat
  | [] => best
  | x :: rest => maxByKeyLastGo (if x.2 ≥ best.2 then x else best) rest

/-- Embeds the selection performed by `PhysicalDevice::pick`
(`src/renderer/physical_device.rs` lines 32-45): rate every enumerated device,
keep those rated `Some` (`filter` on `is_some`, in enumeration order), and take
`max_by_key` of the score; `none` models the `expect("No suitable GPU found!")`
panic on an empty suitable list. -/
def PhysicalDevice.pick (devices : List CandidateInfo) : Option CandidateInfo :=
  let suitable := devices.filterMap fun d =>
    (PhysicalDevice.rate d).map (fun s => (d, s))
  match suitable with
  | [] => none
  | x :: rest => some (maxByKeyLastGo x rest).1

/-- The suitable (candidate, score) list built by `PhysicalDevice::pick`. -/
def suitableCandidates (devices : List CandidateInfo) :
    List (CandidateInfo × Nat) :=
  devices.filterMap fun d => (PhysicalDevice.rate d).map (fun s => (d, s))

/-! ## Teardown and frame recording -/

/-- One teardown action of the renderer: the destruction calls of
`impl Drop for Renderer` (`src/renderer/mod.rs` lines 537-559), where
`destroyImageViews` stands for the loop destroying every image view, plus the
device-idle wait of the shutdown path. -/
inductive TeardownStep where
  | destroyDebugMessenger
  | destroyImageViews
  | destroyPipeline
  | destroyPipelineLayout
  | destroyRenderPass
  | destroySwapchain
  | destroySurface
  | destroyDevice
  | destroyInstanceHandle
  | deviceWaitIdle
  deriving DecidableEq, Repr

/-- Embeds `impl Drop for Renderer` (`src/renderer/mod.rs` lines 537-559): the
destruction calls in source order; the debug messenger destroy runs only when a
messenger was created. -/
def rendererDropOrder (hasDebugMessenger : Bool) : List TeardownStep :=
  (if hasDebugMessenger then [TeardownStep.destroyDebugMessenger] else []) ++
    [TeardownStep.destroyImageViews, TeardownStep.destroyPipeline,
     TeardownStep.destroyPipelineLayout, TeardownStep.destroyRenderPass,
     TeardownStep.destroySwapchain, TeardownStep.destroySurface,
     TeardownStep.destroyDevice, TeardownStep.destroyInstanceHandle]

/-- Modelled from the spec: `Renderer::shutdown` is invoked from `src/main.rs`
(line 39, at `LoopDestroyed`) but its definition is not under `src/`; per the
spec the driver "is instructed to block until the device reports fully idle
before any owned resource is destroyed", after which destruction is the
embedded `Drop` sequence above. -/
def shutdownSequence (hasDebugMessenger : Bool) : List TeardownStep :=
  TeardownStep.deviceWaitIdle :: rendererDropOrder hasDebugMessenger

/-- One command-buffer action of the per-frame recording. -/
inductive RenderCmd where
  | resetCommandBuffer
  | beginRenderPass (framebufferIndex : Nat)
  | bindGraphicsPipeline
  | draw (vertexCount instanceCount : Nat)
  | endRenderPass
  | endRecording
  deriving DecidableEq, Repr

/-- Modelled from the spec: `Renderer::draw_frame` is invoked from `src/main.rs`
(line 33, on every redraw) but its definition is not under `src/`; per the spec
the per-frame recording resets the single reusable command buffer, begins the
render pass against the framebuffer for the acquired image index, binds the one
graphics pipeline, issues a draw of exactly 3 vertices / 1 instance, ends the
render pass and ends recording. -/
def drawFrameRecording (acquiredIndex : Nat) : List RenderCmd :=
  [RenderCmd.resetCommandBuffer,
   RenderCmd.beginRenderPass acquiredIndex,
   RenderCmd.bindGraphicsPipeline,
   RenderCmd.draw 3 1,
   RenderCmd.endRenderPass,
   RenderCmd.endRecording]

/-! ## Theorems -/

/-- Characterization of the embedded Rust clamp, under the Vulkan guarantee
`lo ≤ hi`. -/
theorem clampU32_spec (x lo hi : Nat) (h : lo ≤ hi) :
    (x < lo → clampU32 x lo hi = lo) ∧
    (hi < x → clampU32 x lo hi = hi) ∧
    (lo ≤ x → x ≤ hi → clampU32 x lo hi = x) := by
  unfold clampU32
  refine ⟨fun h1 => ?_, fun h1 => ?_, fun h1 h2 => ?_⟩ <;>
    split_ifs <;> omega

/-- C2: the claim states that the chosen swapchain image count equals
`min_image_count + 1`, reduced to `max_image_count` only when that bound is
nonzero and smaller than `min_image_count + 1`.  The inline computation of
`SwapChain::new` satisfies this, but `utils.rs`'s `choose_image_count` has the
comparison reversed: at `min_image_count = 3`, `max_image_count = 3` it returns
4, exceeding the nonzero maximum (invalid Vulkan usage), and at
`min_image_count = 1`, `max_image_count = 5` it returns 5 instead of 2. -/
theorem chooseImageCount_reversed_comparison :
    SwapChainSupportDetails.chooseImageCount
        ⟨⟨3, 3, ⟨0, 0⟩, ⟨0, 0⟩, ⟨0, 0⟩⟩, [], []⟩ = 4 ∧
    ¬ (4 ≤ 3) ∧
    swapChainNewImageCount ⟨3, 3, ⟨0, 0⟩, ⟨0, 0⟩, ⟨0, 0⟩⟩ = 3 ∧
    SwapChainSupportDetails.chooseImageCount
        ⟨⟨1, 5, ⟨0, 0⟩, ⟨0, 0⟩, ⟨0, 0⟩⟩, [], []⟩ = 5 ∧
    swapChainNewImageCount ⟨1, 5, ⟨0, 0⟩, ⟨0, 0⟩, ⟨0, 0⟩⟩ = 2 ∧
    swapChainNewImageCount ⟨1, 0, ⟨0, 0⟩, ⟨0, 0⟩, ⟨0, 0⟩⟩ = 2 := by
  decide

/-- C6: when `current_extent.width` is not the sentinel, the chosen extent is
`current_extent` verbatim; when it is the sentinel, each component of the
chosen extent is the window size clamped into the image-extent bounds: the
nearest bound when out of bounds, the window size itself when within. -/
theorem chooseSwapExtent_spec (d : SwapChainSupportDetails) (w : Extent2D) :
    (d.capabilities.currentExtent.width ≠ U32_MAX →
      d.chooseSwapExtent w = d.capabilities.currentExtent) ∧
    (d.capabilities.currentExtent.width = U32_MAX →
      d.capabilities.minImageExtent.width ≤ d.capabilities.maxImageExtent.width →
      d.capabilities.minImageExtent.height ≤ d.capabilities.maxImageExtent.height →
      (w.width < d.capabilities.minImageExtent.width →
        (d.chooseSwapExtent w).width = d.capabilities.minImageExtent.width) ∧
      (d.capabilities.maxImageExtent.width < w.width →
        (d.chooseSwapExtent w).width = d.capabilities.maxImageExtent.width) ∧
      (d.capabilities.minImageExtent.width ≤ w.width →
        w.width ≤ d.capabilities.maxImageExtent.width →
        (d.chooseSwapExtent w).width = w.width) ∧
      (w.height < d.capabilities.minImageExtent.height →
        (d.chooseSwapExtent w).height = d.capabilities.minImageExtent.height) ∧
      (d.capabilities.maxImageExtent.height < w.height →
        (d.chooseSwapExtent w).height = d.capabilities.maxImageExtent.height) ∧
      (d.capabilities.minImageExtent.height ≤ w.height →
        w.height ≤ d.capabilities.maxImageExtent.height →
        (d.chooseSwapExtent w).height = w.height)) := by
  constructor
  · intro h
    simp [SwapChainSupportDetails.chooseSwapExtent, h]
  · intro h hw hh
    simp only [SwapChainSupportDetails.chooseSwapExtent, h, ne_eq,
      not_true_eq_false, if_false]
    unfold clampU32
    refine ⟨fun h1 => ?_, fun h1 => ?_, fun h1 h2 => ?_,
      fun h1 => ?_, fun h1 => ?_, fun h1 h2 => ?_⟩ <;>
      · split_ifs <;> omega

/-- Witness for C6, the spec's end-to-end scenario: sentinel extent, window
1024x768, bounds 1x1 to 4096x4096 give the window size exactly. -/
theorem chooseSwapExtent_spec_witness :
    (SwapChainSupportDetails.chooseSwapExtent
        ⟨⟨1, 0, ⟨U32_MAX, 0⟩, ⟨1, 1⟩, ⟨4096, 4096⟩⟩, [], []⟩ ⟨1024, 768⟩).width
      = 1024 ∧
    (SwapChainSupportDetails.chooseSwapExtent
        ⟨⟨1, 0, ⟨U32_MAX, 0⟩, ⟨1, 1⟩, ⟨4096, 4096⟩⟩, [], []⟩ ⟨1024, 768⟩).height
      = 768 := by
  have h := (chooseSwapExtent_spec
    ⟨⟨1, 0, ⟨U32_MAX, 0⟩, ⟨1, 1⟩, ⟨4096, 4096⟩⟩, [], []⟩ ⟨1024, 768⟩).2
    rfl (by decide) (by decide)
  exact ⟨h.2.2.1 (by decide) (by decide), h.2.2.2.2.2 (by decide) (by decide)⟩

/-- C7: for a non-empty format list, format selection returns some format;
it returns the (B8G8R8A8_SRGB, SRGB_NONLINEAR) pair whenever that pair occurs
in the list, and the first list entry when it does not.  The embedded function
is pure in the list, so repeated calls on the same list agree definitionally
(idempotence in the claim's sense). -/
theorem chooseFormat_spec (d : SwapChainSupportDetails) (hne : d.formats ≠ []) :
    (∃ f, d.chooseFormat = some f) ∧
    ((⟨B8G8R8A8_SRGB, SRGB_NONLINEAR⟩ : SurfaceFormatKHR) ∈ d.formats →
      d.chooseFormat = some ⟨B8G8R8A8_SRGB, SRGB_NONLINEAR⟩) ∧
    ((⟨B8G8R8A8_SRGB, SRGB_NONLINEAR⟩ : SurfaceFormatKHR) ∉ d.formats →
      d.chooseFormat = d.formats.head?) := by
  unfold SwapChainSupportDetails.chooseFormat
  cases hfind : d.formats.find? (fun f =>
      f.format == B8G8R8A8_SRGB && f.colorSpace == SRGB_NONLINEAR) with
  | none =>
    have hnot := List.find?_eq_none.mp hfind
    refine ⟨?_, ?_, fun _ => rfl⟩
    · cases hd : d.formats with
      | nil => exact absurd hd hne
      | cons a l => exact ⟨a, by simp [hd]⟩
    · intro hmem
      exact absurd (by decide) (hnot _ hmem)
  | some f =>
    have hpred := List.find?_some hfind
    have hf : f = ⟨B8G8R8A8_SRGB, SRGB_NONLINEAR⟩ := by
      cases f with
      | mk fo cs =>
        simp only [Bool.and_eq_true, beq_iff_eq] at hpred
        simp [hpred.1, hpred.2]
    have hmemf : f ∈ d.formats := List.mem_of_find?_eq_some hfind
    refine ⟨⟨f, rfl⟩, fun _ => by rw [hf], fun habs => ?_⟩
    · rw [hf] at hmemf
      exact absurd hmemf habs

/-- Witness for C7: with formats `[(44, 0), (50, 0)]` the preferred pair is
chosen over the first entry. -/
theorem chooseFormat_spec_witness :
    SwapChainSupportDetails.chooseFormat
        ⟨⟨0, 0, ⟨0, 0⟩, ⟨0, 0⟩, ⟨0, 0⟩⟩, [⟨44, 0⟩, ⟨50, 0⟩], []⟩
      = some ⟨B8G8R8A8_SRGB, SRGB_NONLINEAR⟩ :=
  (chooseFormat_spec
    ⟨⟨0, 0, ⟨0, 0⟩, ⟨0, 0⟩, ⟨0, 0⟩⟩, [⟨44, 0⟩, ⟨50, 0⟩], []⟩
    (by decide)).2.1 (by decide)

/-- C8: the swapchain create info declares concurrent sharing, listing both
queue family indices, exactly when the graphics and present family indices
differ, and exclusive sharing exactly when they coincide. -/
theorem swapChainSharing_spec (g p : Nat) :
    ((swapChainSharing g p).1 = SharingMode.concurrent ↔ g ≠ p) ∧
    ((swapChainSharing g p).1 = SharingMode.exclusive ↔ g = p) ∧
    (g ≠ p → (swapChainSharing g p).2 = [g, p]) := by
  by_cases h : g = p <;> simp [swapChainSharing, h]

/-- Witness for C8: distinct family indices 0 and 1 give concurrent sharing
listing both; equal indices 2 and 2 give exclusive sharing. -/
theorem swapChainSharing_spec_witness :
    (swapChainSharing 0 1).1 = SharingMode.concurrent ∧
    (swapChainSharing 0 1).2 = [0, 1] ∧
    (swapChainSharing 2 2).1 = SharingMode.exclusive :=
  ⟨(swapChainSharing_spec 0 1).1.mpr (by decide),
   (swapChainSharing_spec 0 1).2.2 (by decide),
   (swapChainSharing_spec 2 2).2.1.mpr rfl⟩

/-- C4: every per-frame invocation records, on the single reusable command
buffer, a render pass against the framebuffer for the acquired image index,
binds the one graphics pipeline, and issues a draw of exactly 3 vertices and
1 instance (and no draw with any other counts). -/
theorem drawFrameRecording_spec (i : Nat) :
    RenderCmd.resetCommandBuffer ∈ drawFrameRecording i ∧
    RenderCmd.beginRenderPass i ∈ drawFrameRecording i ∧
    RenderCmd.bindGraphicsPipeline ∈ drawFrameRecording i ∧
    RenderCmd.draw 3 1 ∈ drawFrameRecording i ∧
    (∀ v n, RenderCmd.draw v n ∈ drawFrameRecording i → v = 3 ∧ n = 1) := by
  refine ⟨?_, ?_, ?_, ?_, ?_⟩ <;> simp [drawFrameRecording]

/-- Witness for C4 at acquired index 0: the 3-vertex, 1-instance draw is
recorded and a 4-vertex draw is not. -/
theorem drawFrameRecording_spec_witness :
    RenderCmd.draw 3 1 ∈ drawFrameRecording 0 ∧
    (RenderCmd.draw 4 1 ∈ drawFrameRecording 0 → False) :=
  ⟨(drawFrameRecording_spec 0).2.2.2.1,
   fun hm => absurd ((drawFrameRecording_spec 0).2.2.2.2 4 1 hm).1 (by decide)⟩

/-- C5 counterexample: in the embedded teardown (here with no debug messenger),
the surface is destroyed strictly before the logical device, so the claim that
the logical device is destroyed before the surface fails on the code. -/
theorem rendererDrop_surface_before_device :
    TeardownStep.destroySurface ∈ shutdownSequence false ∧
    TeardownStep.destroyDevice ∈ shutdownSequence false ∧
    (shutdownSequence false).indexOf TeardownStep.destroySurface <
      (shutdownSequence false).indexOf TeardownStep.destroyDevice ∧
    ¬ ((shutdownSequence false).indexOf TeardownStep.destroyDevice <
        (shutdownSequence false).indexOf TeardownStep.destroySurface) := by
  decide

/-- C5 amended: shutdown first blocks until the device is idle, and the `Drop`
order destroys the image views, pipeline, pipeline layout, render pass and
swapchain before the logical device; the surface is destroyed before the
logical device (not after it), and the logical device before the instance. -/
theorem shutdownSequence_order_spec (dbg : Bool) :
    (shutdownSequence dbg).head? = some TeardownStep.deviceWaitIdle ∧
    TeardownStep.destroyDevice ∈ rendererDropOrder dbg ∧
    TeardownStep.destroySurface ∈ rendererDropOrder dbg ∧
    TeardownStep.destroyInstanceHandle ∈ rendererDropOrder dbg ∧
    (rendererDropOrder dbg).indexOf TeardownStep.destroyImageViews <
      (rendererDropOrder dbg).indexOf TeardownStep.destroyDevice ∧
    (rendererDropOrder dbg).indexOf TeardownStep.destroyPipeline <
      (rendererDropOrder dbg).indexOf TeardownStep.destroyDevice ∧
    (rendererDropOrder dbg).indexOf TeardownStep.destroyPipelineLayout <
      (rendererDropOrder dbg).indexOf TeardownStep.destroyDevice ∧
    (rendererDropOrder dbg).indexOf TeardownStep.destroyRenderPass <
      (rendererDropOrder dbg).indexOf TeardownStep.destroyDevice ∧
    (rendererDropOrder dbg).indexOf TeardownStep.destroySwapchain <
      (rendererDropOrder dbg).indexOf TeardownStep.destroyDevice ∧
    (rendererDropOrder dbg).indexOf TeardownStep.destroySurface <
      (rendererDropOrder dbg).indexOf TeardownStep.destroyDevice ∧
    (rendererDropOrder dbg).indexOf TeardownStep.destroyDevice <
      (rendererDropOrder dbg).indexOf TeardownStep.destroyInstanceHandle := by
  cases dbg <;> decide

/-- The accumulator update of one loop iteration of
`pick_most_suitable_physical_device`, written via `effectiveScore`: a rejected
candidate never updates `best`, which coincides with comparing its effective
score 0 against `best.1` under the strict comparison. -/
theorem pickBestGo_cons (req opt : List String) (ratings : List Nat)
    (i : Nat) (b : Nat × Nat) (d : AdapterInfo) (rest : List AdapterInfo) :
    pickBestGo req opt ratings i b (d :: rest) =
      pickBestGo req opt ratings (i + 1)
        (if effectiveScore req opt ratings d > b.2
          then (i, effectiveScore req opt ratings d) else b) rest := by
  simp only [pickBestGo, effectiveScore]
  by_cases hs : adapterSurvives req d
  · simp [hs]
  · simp [hs]

/-- Full characterization of the `best` fold of
`pick_most_suitable_physical_device`: either no candidate beats the incoming
accumulator and it is returned unchanged, or the fold returns the position and
effective score of the first candidate attaining the strict maximum. -/
theorem pickBestGo_spec (req opt : List String) (ratings : List Nat)
    (l : List AdapterInfo) : ∀ (i : Nat) (b : Nat × Nat),
    (pickBestGo req opt ratings i b l = b ∧
      ∀ k d, l.get? k = some d → effectiveScore req opt ratings d ≤ b.2) ∨
    (∃ j d, l.get? j = some d ∧
      pickBestGo req opt ratings i b l =
        (i + j, effectiveScore req opt ratings d) ∧
      b.2 < effectiveScore req opt ratings d ∧
      (∀ k d', l.get? k = some d' →
        effectiveScore req opt ratings d' ≤ effectiveScore req opt ratings d) ∧
      (∀ k d', k < j → l.get? k = some d' →
        effectiveScore req opt ratings d' <
          effectiveScore req opt ratings d)) := by
  induction l with
  | nil =>
    intro i b
    left
    exact ⟨rfl, fun k d h => nomatch h⟩
  | cons d rest ih =>
    intro i b
    rw [pickBestGo_cons]
    by_cases he : effectiveScore req opt ratings d > b.2
    · rw [if_pos he]
      rcases ih (i + 1) (i, effectiveScore req opt ratings d) with
        ⟨heq, hall⟩ | ⟨j, d', hget, heq, hgt, hmax, hbefore⟩
      · right
        refine ⟨0, d, rfl, ?_, he, ?_, ?_⟩
        · rw [heq, Nat.add_zero]
        · intro k d'' hk
          cases k with
          | zero =>
            injection hk with h
            subst h
            exact le_refl _
          | succ k => exact hall k d'' hk
        · intro k d'' hkj hk
          exact absurd hkj (Nat.not_lt_zero k)
      · right
        have harith : i + 1 + j = i + (j + 1) := by omega
        refine ⟨j + 1, d', hget, ?_, lt_trans he hgt, ?_, ?_⟩
        · rw [heq, harith]
        · intro k d'' hk
          cases k with
          | zero =>
            injection hk with h
            subst h
            exact le_of_lt hgt
          | succ k => exact hmax k d'' hk
        · intro k d'' hkj hk
          cases k with
          | zero =>
            injection hk with h
            subst h
            exact hgt
          | succ k => exact hbefore k d'' (Nat.lt_of_succ_lt_succ hkj) hk
    · rw [if_neg he]
      have he' : effectiveScore req opt ratings d ≤ b.2 := Nat.not_lt.mp he
      rcases ih (i + 1) b with
        ⟨heq, hall⟩ | ⟨j, d', hget, heq, hgt, hmax, hbefore⟩
      · left
        refine ⟨heq, ?_⟩
        intro k d'' hk
        cases k with
        | zero =>
          injection hk with h
          subst h
          exact he'
        | succ k => exact hall k d'' hk
      · right
        have harith : i + 1 + j = i + (j + 1) := by omega
        refine ⟨j + 1, d', hget, ?_, hgt, ?_, ?_⟩
        · rw [heq, harith]
        · intro k d'' hk
          cases k with
          | zero =>
            injection hk with h
            subst h
            exact le_of_lt (lt_of_le_of_lt he' hgt)
          | succ k => exact hmax k d'' hk
        · intro k d'' hkj hk
          cases k with
          | zero =>
            injection hk with h
            subst h
            exact lt_of_le_of_lt he' hgt
          | succ k => exact hbefore k d'' (Nat.lt_of_succ_lt_succ hkj) hk

/-- Full characterization of the embedded `max_by_key` fold: either every
listed key is strictly below the incoming element's key and the incoming
element is returned, or the fold returns the last listed element attaining the
maximal key. -/
theorem maxByKeyLastGo_spec {α : Type} (l : List (α × Nat)) : ∀ b : α × Nat,
    (maxByKeyLastGo b l = b ∧ ∀ k y, l.get? k = some y → y.2 < b.2) ∨
    (∃ j y, l.get? j = some y ∧ maxByKeyLastGo b l = y ∧ b.2 ≤ y.2 ∧
      (∀ k z, l.get? k = some z → z.2 ≤ y.2) ∧
      (∀ k z, j < k → l.get? k = some z → z.2 < y.2)) := by
  induction l with
  | nil =>
    intro b
    left
    exact ⟨rfl, fun k y h => nomatch h⟩
  | cons x rest ih =>
    intro b
    rw [maxByKeyLastGo]
    by_cases hc : x.2 ≥ b.2
    · rw [if_pos hc]
      rcases ih x with ⟨heq, hall⟩ | ⟨j, y, hget, heq, hle, hmax, hafter⟩
      · right
        refine ⟨0, x, rfl, heq, hc, ?_, ?_⟩
        · intro k z hk
          cases k with
          | zero =>
            injection hk with h
            subst h
            exact le_refl _
          | succ k => exact le_of_lt (hall k z hk)
        · intro k z hk0 hk
          cases k with
          | zero => exact absurd hk0 (Nat.not_lt_zero 0)
          | succ k => exact hall k z hk
      · right
        refine ⟨j + 1, y, hget, heq, le_trans hc hle, ?_, ?_⟩
        · intro k z hk
          cases k with
          | zero =>
            injection hk with h
            subst h
            exact hle
          | succ k => exact hmax k z hk
        · intro k z hkj hk
          cases k with
          | zero => exact absurd hkj (Nat.not_lt_zero _)
          | succ k => exact hafter k z (Nat.lt_of_succ_lt_succ hkj) hk
    · rw [if_neg hc]
      have hc' : x.2 < b.2 := Nat.not_le.mp hc
      rcases ih b with ⟨heq, hall⟩ | ⟨j, y, hget, heq, hle, hmax, hafter⟩
      · left
        refine ⟨heq, ?_⟩
        intro k z hk
        cases k with
        | zero =>
          injection hk with h
          subst h
          exact hc'
        | succ k => exact hall k z hk
      · right
        refine ⟨j + 1, y, hget, heq, hle, ?_, ?_⟩
        · intro k z hk
          cases k with
          | zero =>
            injection hk with h
            subst h
            exact le_of_lt (lt_of_lt_of_le hc' hle)
          | succ k => exact hmax k z hk
        · intro k z hkj hk
          cases k with
          | zero => exact absurd hkj (Nat.not_lt_zero _)
          | succ k => exact hafter k z (Nat.lt_of_succ_lt_succ hkj) hk

/-- Rejection checks recorded by a successful `PhysicalDevice::rate`: a rated
candidate has the geometry-shader feature, both queue family indices, suitable
swapchain support, and an API version at least the patchless instance
version. -/
theorem rate_some_checks {d : CandidateInfo} {s : Nat}
    (h : PhysicalDevice.rate d = some s) :
    d.features.geometryShader ≠ 0 ∧
    (findQueueFamilies d.queueFamilies).graphicsFamily.isSome = true ∧
    (findQueueFamilies d.queueFamilies).presentFamily.isSome = true ∧
    d.details.isSuitable = true ∧
    INSTANCE_API_VERSION_PATCHLESS ≤ d.apiVersion := by
  simp only [PhysicalDevice.rate] at h
  split_ifs at h
  refine ⟨by assumption, ?_, ?_, by assumption, by omega⟩
  · cases hag : (findQueueFamilies d.queueFamilies).graphicsFamily with
    | none => simp_all
    | some v => simp [hag]
  · cases hap : (findQueueFamilies d.queueFamilies).presentFamily with
    | none => simp_all
    | some v => simp [hap]

/-- The pick of `PhysicalDevice::pick` expressed through the suitable
(candidate, score) list. -/
theorem pick_eq_match (ds : List CandidateInfo) :
    PhysicalDevice.pick ds =
      match suitableCandidates ds with
      | [] => none
      | x :: rest => some (maxByKeyLastGo x rest).1 := rfl

/-- Every entry of the suitable list carries its candidate's rate. -/
theorem suitable_get_rate {ds : List CandidateInfo} {k : Nat}
    {y : CandidateInfo × Nat}
    (h : (suitableCandidates ds).get? k = some y) :
    PhysicalDevice.rate y.1 = some y.2 := by
  have hmem : y ∈ suitableCandidates ds := List.get?_mem h
  rw [suitableCandidates, List.mem_filterMap] at hmem
  obtain ⟨a, _, hfa⟩ := hmem
  cases hr : PhysicalDevice.rate a with
  | none =>
    rw [hr] at hfa
    exact Option.noConfusion hfa
  | some s =>
    rw [hr] at hfa
    simp only [Option.map_some'] at hfa
    injection hfa with hfa
    rw [← hfa]
    exact hr

/-- A device returned by `PhysicalDevice::pick` was rated `Some`. -/
theorem pick_some_rate {ds : List CandidateInfo} {d : CandidateInfo}
    (h : PhysicalDevice.pick ds = some d) :
    ∃ s, PhysicalDevice.rate d = some s := by
  rw [pick_eq_match] at h
  cases hs : suitableCandidates ds with
  | nil =>
    rw [hs] at h
    exact Option.noConfusion h
  | cons x rest =>
    rw [hs] at h
    have h' : some (maxByKeyLastGo x rest).1 = some d := h
    injection h' with h'
    rcases maxByKeyLastGo_spec rest x with ⟨heq, _⟩ | ⟨j, y, hget, heq, _, _, _⟩
    · have h0 : (suitableCandidates ds).get? 0 = some x := by rw [hs]; rfl
      have hr := suitable_get_rate h0
      refine ⟨x.2, ?_⟩
      rw [← h', heq]
      exact hr
    · have hj : (suitableCandidates ds).get? (j + 1) = some y := by
        rw [hs]; exact hget
      have hr := suitable_get_rate hj
      refine ⟨y.2, ?_⟩
      rw [← h', heq]
      exact hr

/-- Characterization of a successful `pick_most_suitable_physical_device`:
the returned adapter sits at a position whose effective score is positive and
maximal, and every earlier position scores strictly lower (the loop keeps the
first maximum). -/
theorem pickMostSuitable_some {req opt : List String} {ratings : List Nat}
    {ds : List AdapterInfo} {d : AdapterInfo}
    (h : pickMostSuitablePhysicalDevice req opt ratings ds = some d) :
    ∃ i, ds.get? i = some d ∧
      0 < effectiveScore req opt ratings d ∧
      (∀ j d', ds.get? j = some d' →
        effectiveScore req opt ratings d' ≤ effectiveScore req opt ratings d) ∧
      (∀ j d', j < i → ds.get? j = some d' →
        effectiveScore req opt ratings d' <
          effectiveScore req opt ratings d) := by
  simp only [pickMostSuitablePhysicalDevice] at h
  split_ifs at h with hlen hzero
  rcases pickBestGo_spec req opt ratings ds 0 (0, 0) with
    ⟨heq, _⟩ | ⟨j, dj, hget, heq, hgt, hmax, hbefore⟩
  · rw [heq] at hzero
    exact absurd rfl hzero
  · rw [heq] at h
    rw [Nat.zero_add] at h
    rw [hget] at h
    injection h with h
    subst h
    refine ⟨j, hget, hgt, hmax, hbefore⟩

/-- A positive effective score means the adapter survived the rejection
checks and its raw score equals the effective score. -/
theorem effectiveScore_pos {req opt : List String} {ratings : List Nat}
    {d : AdapterInfo} (h : 0 < effectiveScore req opt ratings d) :
    adapterSurvives req d = true ∧
      adapterScore opt ratings d = effectiveScore req opt ratings d := by
  by_cases hs : adapterSurvives req d = true
  · refine ⟨hs, ?_⟩
    simp [effectiveScore, hs]
  · exfalso
    simp [effectiveScore, hs] at h

/-- A surviving adapter has both required queue family indices. -/
theorem adapterSurvives_hasRequired {req : List String} {d : AdapterInfo}
    (h : adapterSurvives req d = true) :
    (findQueueFamilies d.queueFamilies).hasRequired = true := by
  simp only [adapterSurvives, Bool.and_eq_true] at h
  exact h.1.1.1

/-- C9: an adapter lacking a graphics-capable queue family or a
presentation-capable queue family is never selected: whatever either selector
returns has both indices resolved. -/
theorem selected_adapter_has_queue_families :
    (∀ (req opt : List String) (ratings : List Nat) (ds : List AdapterInfo)
        (d : AdapterInfo),
      pickMostSuitablePhysicalDevice req opt ratings ds = some d →
      (findQueueFamilies d.queueFamilies).hasRequired = true) ∧
    (∀ (ds : List CandidateInfo) (d : CandidateInfo),
      PhysicalDevice.pick ds = some d →
      (findQueueFamilies d.queueFamilies).graphicsFamily.isSome = true ∧
      (findQueueFamilies d.queueFamilies).presentFamily.isSome = true) := by
  constructor
  · intro req opt ratings ds d h
    obtain ⟨i, _, hpos, _, _⟩ := pickMostSuitable_some h
    exact adapterSurvives_hasRequired (effectiveScore_pos hpos).1
  · intro ds d h
    obtain ⟨s, hs⟩ := pick_some_rate h
    have hc := rate_some_checks hs
    exact ⟨hc.2.1, hc.2.2.1⟩

/-- Witness for C9: a concrete single-adapter selection resolves both queue
family indices. -/
theorem selected_adapter_has_queue_families_witness :
    (findQueueFamilies [⟨true, true⟩]).hasRequired = true :=
  selected_adapter_has_queue_families.1 [] [] []
    [⟨[⟨true, true⟩], [],
      ⟨⟨1, 0, ⟨0, 0⟩, ⟨0, 0⟩, ⟨0, 0⟩⟩, [⟨50, 0⟩], [2]⟩,
      PhysicalDeviceType.discreteGpu⟩]
    ⟨[⟨true, true⟩], [],
      ⟨⟨1, 0, ⟨0, 0⟩, ⟨0, 0⟩, ⟨0, 0⟩⟩, [⟨50, 0⟩], [2]⟩,
      PhysicalDeviceType.discreteGpu⟩
    (by decide)

/-- C10: `PhysicalDevice::rate` rejects a candidate whose geometry-shader
feature is 0 regardless of every other capability, so `PhysicalDevice::pick`
never selects such an adapter. -/
theorem geometry_shader_rejection :
    (∀ d : CandidateInfo, d.features.geometryShader = 0 →
      PhysicalDevice.rate d = none) ∧
    (∀ (ds : List CandidateInfo) (d : CandidateInfo),
      PhysicalDevice.pick ds = some d → d.features.geometryShader ≠ 0) := by
  constructor
  · intro d h
    simp only [PhysicalDevice.rate]
    split_ifs <;> rfl
  · intro ds d h
    obtain ⟨s, hs⟩ := pick_some_rate h
    exact (rate_some_checks hs).1

/-- Witness for C10: a concrete candidate with every other capability present
but geometry shader reported 0 is rated `None`. -/
theorem geometry_shader_rejection_witness :
    PhysicalDevice.rate
      ⟨[], ["VK_KHR_swapchain"], ⟨0⟩, [⟨true, true⟩],
        ⟨⟨1, 0, ⟨0, 0⟩, ⟨0, 0⟩, ⟨0, 0⟩⟩, [⟨50, 0⟩], [2]⟩, 4202496,
        PhysicalDeviceType.discreteGpu⟩ = none :=
  geometry_shader_rejection.1
    ⟨[], ["VK_KHR_swapchain"], ⟨0⟩, [⟨true, true⟩],
      ⟨⟨1, 0, ⟨0, 0⟩, ⟨0, 0⟩, ⟨0, 0⟩⟩, [⟨50, 0⟩], [2]⟩, 4202496,
      PhysicalDeviceType.discreteGpu⟩ rfl

/-- C1 counterexample: a candidate that passes every rejection check of
`pick_most_suitable_physical_device` (queue families, mandatory extensions,
non-empty format and present-mode lists) but is not a discrete GPU and
supports no rated optional extension scores 0, and the selector aborts
("No Suitable Physical Device found") even though this candidate survived. -/
theorem pickMostSuitable_aborts_despite_survivor :
    adapterSurvives ["VK_KHR_swapchain"]
      ⟨[⟨true, true⟩], ["VK_KHR_swapchain"],
        ⟨⟨1, 0, ⟨0, 0⟩, ⟨0, 0⟩, ⟨0, 0⟩⟩, [⟨50, 0⟩], [2]⟩,
        PhysicalDeviceType.integratedGpu⟩ = true ∧
    pickMostSuitablePhysicalDevice ["VK_KHR_swapchain"] [] []
      [⟨[⟨true, true⟩], ["VK_KHR_swapchain"],
        ⟨⟨1, 0, ⟨0, 0⟩, ⟨0, 0⟩, ⟨0, 0⟩⟩, [⟨50, 0⟩], [2]⟩,
        PhysicalDeviceType.integratedGpu⟩] = none := by
  decide

/-- C1 amended: `pick_most_suitable_physical_device` (with matching
ratings/optional lists) aborts exactly when every candidate's effective score
is 0 — in particular also when survivors exist but all score 0 — and any
returned adapter both survived the rejection checks and scored positively;
`PhysicalDevice::pick` aborts exactly when every candidate is rated `None`. -/
theorem selector_failure_characterization :
    (∀ (req opt : List String) (ratings : List Nat) (ds : List AdapterInfo),
      ratings.length = opt.length →
      (pickMostSuitablePhysicalDevice req opt ratings ds = none ↔
        ∀ d ∈ ds, effectiveScore req opt ratings d = 0)) ∧
    (∀ (req opt : List String) (ratings : List Nat) (ds : List AdapterInfo)
        (d : AdapterInfo),
      pickMostSuitablePhysicalDevice req opt ratings ds = some d →
      adapterSurvives req d = true ∧ 0 < adapterScore opt ratings d) ∧
    (∀ ds : List CandidateInfo,
      PhysicalDevice.pick ds = none ↔
        ∀ d ∈ ds, PhysicalDevice.rate d = none) := by
  refine ⟨?_, ?_, ?_⟩
  · intro req opt ratings ds hlen
    constructor
    · intro hnone d hd
      simp only [pickMostSuitablePhysicalDevice] at hnone
      rw [if_neg (fun hne => hne hlen)] at hnone
      rcases pickBestGo_spec req opt ratings ds 0 (0, 0) with
        ⟨heq, hall⟩ | ⟨j, dj, hget, heq, hgt, hmax, hbefore⟩
      · obtain ⟨k, hk⟩ := List.get?_of_mem hd
        have := hall k d hk
        omega
      · rw [heq] at hnone
        rw [if_neg (by simp; omega)] at hnone
        rw [Nat.zero_add] at hnone
        rw [hget] at hnone
        exact Option.noConfusion hnone
    · intro hall
      simp only [pickMostSuitablePhysicalDevice]
      rw [if_neg (fun hne => hne hlen)]
      rcases pickBestGo_spec req opt ratings ds 0 (0, 0) with
        ⟨heq, _⟩ | ⟨j, dj, hget, heq, hgt, _, _⟩
      · rw [heq]
        simp
      · exfalso
        have := hall dj (List.get?_mem hget)
        omega
  · intro req opt ratings ds d h
    obtain ⟨i, _, hpos, _, _⟩ := pickMostSuitable_some h
    have he := effectiveScore_pos hpos
    refine ⟨he.1, ?_⟩
    rw [he.2]
    exact hpos
  · intro ds
    rw [pick_eq_match]
    cases hs : suitableCandidates ds with
    | nil =>
      constructor
      · intro _ d hd
        rw [suitableCandidates] at hs
        have := List.filterMap_eq_nil_iff.mp hs d hd
        exact Option.map_eq_none'.mp this
      · intro _
        rfl
    | cons x rest =>
      constructor
      · intro habs
        exact Option.noConfusion habs
      · intro hall
        exfalso
        have hmem : x ∈ suitableCandidates ds := by
          rw [hs]
          exact List.mem_cons_self _ _
        rw [suitableCandidates, List.mem_filterMap] at hmem
        obtain ⟨a, ha, hfa⟩ := hmem
        rw [hall a ha] at hfa
        exact Option.noConfusion hfa

/-- Witness for C1: a concrete discrete-GPU candidate has positive effective
score, so the iff rules out an abort. -/
theorem selector_failure_characterization_witness :
    ¬ (pickMostSuitablePhysicalDevice [] [] []
        [⟨[⟨true, true⟩], [],
          ⟨⟨1, 0, ⟨0, 0⟩, ⟨0, 0⟩, ⟨0, 0⟩⟩, [⟨50, 0⟩], [2]⟩,
          PhysicalDeviceType.discreteGpu⟩] = none) := by
  intro hn
  have h := (selector_failure_characterization.1 [] [] [] _ rfl).mp hn
  have hz := h _ (List.mem_singleton.mpr rfl)
  revert hz
  decide

/-- C3 counterexample: two distinct candidates both rated 1000 by
`PhysicalDevice::rate`; `PhysicalDevice::pick` returns the second (Rust
`max_by_key` keeps the last maximum), not the first in enumeration order as
the claim states. -/
theorem pick_tie_returns_last_candidate :
    PhysicalDevice.rate
      ⟨[], ["VK_KHR_swapchain"], ⟨1⟩, [⟨true, true⟩],
        ⟨⟨1, 0, ⟨0, 0⟩, ⟨0, 0⟩, ⟨0, 0⟩⟩, [⟨50, 0⟩], [2]⟩, 4202496,
        PhysicalDeviceType.discreteGpu⟩ = some 1000 ∧
    PhysicalDevice.rate
      ⟨[], ["VK_KHR_swapchain"], ⟨1⟩, [⟨true, true⟩],
        ⟨⟨1, 0, ⟨0, 0⟩, ⟨0, 0⟩, ⟨0, 0⟩⟩, [⟨50, 0⟩], [2]⟩, 4202497,
        PhysicalDeviceType.discreteGpu⟩ = some 1000 ∧
    ¬ ((⟨[], ["VK_KHR_swapchain"], ⟨1⟩, [⟨true, true⟩],
        ⟨⟨1, 0, ⟨0, 0⟩, ⟨0, 0⟩, ⟨0, 0⟩⟩, [⟨50, 0⟩], [2]⟩, 4202496,
        PhysicalDeviceType.discreteGpu⟩ : CandidateInfo) =
      ⟨[], ["VK_KHR_swapchain"], ⟨1⟩, [⟨true, true⟩],
        ⟨⟨1, 0, ⟨0, 0⟩, ⟨0, 0⟩, ⟨0, 0⟩⟩, [⟨50, 0⟩], [2]⟩, 4202497,
        PhysicalDeviceType.discreteGpu⟩) ∧
    PhysicalDevice.pick
      [⟨[], ["VK_KHR_swapchain"], ⟨1⟩, [⟨true, true⟩],
        ⟨⟨1, 0, ⟨0, 0⟩, ⟨0, 0⟩, ⟨0, 0⟩⟩, [⟨50, 0⟩], [2]⟩, 4202496,
        PhysicalDeviceType.discreteGpu⟩,
       ⟨[], ["VK_KHR_swapchain"], ⟨1⟩, [⟨true, true⟩],
        ⟨⟨1, 0, ⟨0, 0⟩, ⟨0, 0⟩, ⟨0, 0⟩⟩, [⟨50, 0⟩], [2]⟩, 4202497,
        PhysicalDeviceType.discreteGpu⟩] =
      some
        ⟨[], ["VK_KHR_swapchain"], ⟨1⟩, [⟨true, true⟩],
          ⟨⟨1, 0, ⟨0, 0⟩, ⟨0, 0⟩, ⟨0, 0⟩⟩, [⟨50, 0⟩], [2]⟩, 4202497,
          PhysicalDeviceType.discreteGpu⟩ := by
  decide

/-- C3 amended: `pick_most_suitable_physical_device` returns the first
candidate attaining the (positive) maximal effective score, while
`PhysicalDevice::pick` returns a suitable candidate of maximal rate and, among
equal maxima, the last in enumeration order (the suitable list preserves
candidate enumeration order). -/
theorem highest_score_selection :
    (∀ (req opt : List String) (ratings : List Nat) (ds : List AdapterInfo)
        (d : AdapterInfo),
      pickMostSuitablePhysicalDevice req opt ratings ds = some d →
      ∃ i, ds.get? i = some d ∧ 0 < effectiveScore req opt ratings d ∧
        (∀ j d', ds.get? j = some d' →
          effectiveScore req opt ratings d' ≤
            effectiveScore req opt ratings d) ∧
        (∀ j d', j < i → ds.get? j = some d' →
          effectiveScore req opt ratings d' <
            effectiveScore req opt ratings d)) ∧
    (∀ (ds : List CandidateInfo) (d : CandidateInfo),
      PhysicalDevice.pick ds = some d →
      ∃ i s, (suitableCandidates ds).get? i = some (d, s) ∧
        PhysicalDevice.rate d = some s ∧
        (∀ j y, (suitableCandidates ds).get? j = some y → y.2 ≤ s) ∧
        (∀ j y, i < j → (suitableCandidates ds).get? j = some y →
          y.2 < s)) := by
  constructor
  · intro req opt ratings ds d h
    exact pickMostSuitable_some h
  · intro ds d h
    rw [pick_eq_match] at h
    cases hs : suitableCandidates ds with
    | nil =>
      rw [hs] at h
      exact Option.noConfusion h
    | cons x rest =>
      rw [hs] at h
      have h' : some (maxByKeyLastGo x rest).1 = some d := h
      injection h' with h'
      rcases maxByKeyLastGo_spec rest x with
        ⟨heq, hall⟩ | ⟨j, y, hget, heq, hle, hmax, hafter⟩
      · have hx1 : x.1 = d := by rw [heq] at h'; exact h'
        have hget0 : (suitableCandidates ds).get? 0 = some x := by
          rw [hs]
          rfl
        have hrate := suitable_get_rate hget0
        have hpair : (d, x.2) = x := by rw [← hx1]
        refine ⟨0, x.2, ?_, ?_, ?_, ?_⟩
        · rw [hpair]
          rfl
        · rw [hx1] at hrate
          exact hrate
        · intro k z hk
          cases k with
          | zero =>
            injection hk with hk
            subst hk
            exact le_refl _
          | succ k => exact le_of_lt (hall k z hk)
        · intro k z hk0 hk
          cases k with
          | zero => exact absurd hk0 (lt_irrefl 0)
          | succ k => exact hall k z hk
      · have hy1 : y.1 = d := by rw [heq] at h'; exact h'
        have hgetj : (suitableCandidates ds).get? (j + 1) = some y := by
          rw [hs]
          exact hget
        have hrate := suitable_get_rate hgetj
        have hpair : (d, y.2) = y := by rw [← hy1]
        refine ⟨j + 1, y.2, ?_, ?_, ?_, ?_⟩
        · rw [hpair]
          exact hget
        · rw [hy1] at hrate
          exact hrate
        · intro k z hk
          cases k with
          | zero =>
            injection hk with hk
            subst hk
            exact hle
          | succ k => exact hmax k z hk
        · intro k z hk0 hk
          cases k with
          | zero => exact absurd hk0 (Nat.not_lt_zero _)
          | succ k => exact hafter k z (Nat.lt_of_succ_lt_succ hk0) hk

/-- Witness for C3: the selection theorem applied to a concrete singleton
candidate list yields the positivity of that candidate's effective score. -/
theorem highest_score_selection_witness :
    0 < effectiveScore [] [] []
      ⟨[⟨true, true⟩], [],
        ⟨⟨1, 0, ⟨0, 0⟩, ⟨0, 0⟩, ⟨0, 0⟩⟩, [⟨50, 0⟩], [2]⟩,
        PhysicalDeviceType.discreteGpu⟩ := by
  obtain ⟨i, hget, hpos, _, _⟩ := highest_score_selection.1 [] [] []
    [⟨[⟨true, true⟩], [],
      ⟨⟨1, 0, ⟨0, 0⟩, ⟨0, 0⟩, ⟨0, 0⟩⟩, [⟨50, 0⟩], [2]⟩,
      PhysicalDeviceType.discreteGpu⟩]
    ⟨[⟨true, true⟩], [],
      ⟨⟨1, 0, ⟨0, 0⟩, ⟨0, 0⟩, ⟨0, 0⟩⟩, [⟨50, 0⟩], [2]⟩,
      PhysicalDeviceType.discreteGpu⟩
    (by decide)
  exact hpos
